import Mathlib

/-!
Shallow embedding of the single-page front end in `src/index.tsx`
(the "Ataturk-ile-ani" image transformation page).

The page keeps one piece of mutable script state (`selectedFile`) and a
handful of DOM regions.  We model the DOM regions that the script reads
or writes as fields of a `UIState` record, and the two event handlers
(the file-input `change` handler and the submit-button `click` handler)
as state-transition functions.  The asynchronous submit handler is split
at its suspension point into a synchronous prefix (`submitStart`) and a
continuation (`submitFinish`) that is parameterised by the outcome the
environment delivers (encoding failure, transport failure, or a service
response).  `fileToBase64` is modelled over the outcome of the platform
`FileReader`, with JavaScript `String.split` on a comma embedded as a
function on character lists.
-/

namespace AtaturkAni

/-- A response part's inline payload: `{ mimeType, data }` as produced by
the generation service (`imagePart.inlineData.mimeType` / `.data` in the
source). -/
structure InlineData where
  mimeType : String
  data : String

deriving instance DecidableEq for InlineData

/-- One part of the service response: it may carry inline image data
and/or text (`part.inlineData`, `part.text` in the source). -/
structure Part where
  inlineData : Option InlineData
  text : Option String

deriving instance DecidableEq for Part

/-- The service response as consumed by the handler: the source reads
`response.candidates?.[0]?.content?.parts || []`, so we keep the
optional parts list (`none` models any missing link of that optional
chain). -/
structure GenResponse where
  partsOpt : Option (List Part)

deriving instance DecidableEq for GenResponse

/-- A user file: the source reads only its identity (stored in
`selectedFile`), its declared media type (`selectedFile.type`) and its
bytes (via the reader, modelled separately). -/
structure File where
  name : String
  type : String

deriving instance DecidableEq for File

/-- An element of the result area (`generatedImageContainer`): the
script only ever appends an `img` (with a `src` and `alt`) or an error
`p` (with its text), and `querySelector` with the selector string
picking images and paragraphs matches exactly these. -/
inductive ResultElem where
  | img (src : String) (alt : String)
  | errP (text : String)

deriving instance DecidableEq for ResultElem

/-- The observable page state touched by the script: the stored
selection, the result area's img and p children, the text of the
error-message element, the loader's hidden flag, the two controls'
disabled flags, the preview region's image sources, the set of live
object URLs, and a counter of outbound service requests. -/
structure UIState where
  selectedFile : Option File
  resultArea : List ResultElem
  errorMessage : String
  loaderHidden : Bool
  submitDisabled : Bool
  uploadDisabled : Bool
  preview : List String
  liveURLs : List String
  requests : Nat

deriving instance DecidableEq for UIState

/-- The message shown when submitting with no file selected. -/
def noFileMsg : String := "Lütfen önce bir resim dosyası seçin."

/-- The generic fallback when the response holds no image part. -/
def defaultErrorMsg : String :=
  "Yanıt bir resim içermiyor. Modelin güvenlik filtreleri tarafından engellenmiş olabilir."

/-- The fallback used when a caught error has no usable message. -/
def unknownErrorMsg : String := "Bilinmeyen bir hata oluştu."

/-- The alt text set on the generated image. -/
def generatedAlt : String := "Yapay zeka tarafından oluşturulan tarihi anı"

/-- JavaScript `x || d` for a possibly-undefined string `x`: the default
is taken when `x` is undefined or the empty string. -/
def jsOrOpt : Option String → String → String
  | some t, d => if t = "" then d else t
  | none, d => d

/-- JavaScript `x || d` for a definitely-present string `x`. -/
def jsOrStr (a b : String) : String := if a = "" then b else a

/-- Truthiness of `part.inlineData` (an object, truthy when present):
the predicate of `parts.find` for the image part. -/
def partHasImage (p : Part) : Bool := p.inlineData.isSome

/-- Truthiness of `part.text` (a string, truthy when present and
non-empty): the predicate of `parts.find` for the text part. -/
def partHasText (p : Part) : Bool := p.text.getD "" != ""

/-- The data URI built for the generated image:
`data:MIME;base64,DATA`. -/
def mkDataURI (d : InlineData) : String :=
  "data:" ++ d.mimeType ++ ";base64," ++ d.data

/-- `querySelector` over the result area followed by `remove()`: the
first img-or-p child is removed when one exists.  In the model every
tracked child matches the selector, so the first match is the head. -/
def clearResult : List ResultElem → List ResultElem
  | [] => []
  | _ :: rest => rest

/-- `setLoading`: shows or hides the loader and toggles both controls'
disabled flags. -/
def setLoading (isLoading : Bool) (s : UIState) : UIState :=
  { s with loaderHidden := !isLoading,
           submitDisabled := isLoading,
           uploadDisabled := isLoading }

/-- `displayError`: writes the message into the error-message element
(the console write has no observable page effect). -/
def displayError (m : String) (s : UIState) : UIState :=
  { s with errorMessage := m }

/-- The `catch` branch's rendering: append a single error paragraph to
the result area. -/
def appendError (m : String) (s : UIState) : UIState :=
  { s with resultArea := s.resultArea ++ [ResultElem.errP m] }

/-- The file-input `change` handler.  `u` is the fresh object URL the
platform would return from `URL.createObjectURL` for the chosen file;
`files` is the input's file list.  When the list is empty the guard
`files && files[0]` fails and nothing happens.  Otherwise the file is
stored, the preview region is rewritten to one image backed by `u`, the
submit control is enabled, the first img-or-p child of the result area
is removed, and the error message is cleared. -/
def selectionHandler (u : String) (files : List File) (s : UIState) : UIState :=
  match files.head? with
  | none => s
  | some f =>
      let s1 := { s with selectedFile := some f }
      let s2 := { s1 with preview := [u], liveURLs := s1.liveURLs ++ [u] }
      let s3 := { s2 with submitDisabled := false }
      let s4 := { s3 with resultArea := clearResult s3.resultArea }
      displayError "" s4

/-- Firing the preview image's `onload` callback: it revokes the object
URL stored in the image's `src`. -/
def previewLoadHandler (s : UIState) : UIState :=
  match s.preview.head? with
  | some u => { s with liveURLs := s.liveURLs.erase u }
  | none => s

/-- The outcome the environment delivers to the suspended submit
handler: the reader rejected (with the caught value's optional
`.message`), the service call rejected (likewise), or the service call
resolved with a response. -/
inductive Outcome where
  | encodeFail (msg : Option String)
  | netFail (msg : Option String)
  | ok (resp : GenResponse)

deriving instance DecidableEq for Outcome

/-- The synchronous prefix of the submit handler once a file is known to
be selected: clear the previous result, enter the loading state, clear
the error message. -/
def submitStart (s : UIState) : UIState :=
  let s1 := { s with resultArea := clearResult s.resultArea }
  let s2 := setLoading true s1
  displayError "" s2

/-- The continuation of the submit handler after its awaits resolve.  A
successful encode issues the service request (counted in `requests`); a
response with an image part appends the generated image, otherwise the
handler throws the first truthy text part's text (or the generic
fallback) and the `catch` branch appends one error paragraph; every path
ends in the `finally` clause leaving the loading state. -/
def submitFinish (o : Outcome) (s : UIState) : UIState :=
  let s' :=
    match o with
    | Outcome.encodeFail m => appendError (jsOrOpt m unknownErrorMsg) s
    | Outcome.netFail m =>
        appendError (jsOrOpt m unknownErrorMsg) { s with requests := s.requests + 1 }
    | Outcome.ok resp =>
        let sr := { s with requests := s.requests + 1 }
        let parts := resp.partsOpt.getD []
        let imagePart := parts.find? partHasImage
        let textPart := parts.find? partHasText
        match imagePart.bind Part.inlineData with
        | some d =>
            { sr with resultArea :=
                sr.resultArea ++ [ResultElem.img (mkDataURI d) generatedAlt] }
        | none =>
            let thrown := jsOrOpt (textPart.bind Part.text) defaultErrorMsg
            appendError (jsOrStr thrown unknownErrorMsg) sr
  setLoading false s'

/-- The submit-button `click` handler: with no selection it reports the
user-facing error and returns before touching anything else; otherwise
it runs the synchronous prefix and, once the environment settles the
awaits with outcome `o`, the continuation. -/
def submitHandler (o : Outcome) (s : UIState) : UIState :=
  match s.selectedFile with
  | none => displayError noFileMsg s
  | some _ => submitFinish o (submitStart s)

/-- A page event: a file-selection change (with the fresh object URL the
platform would mint), the preview image finishing its load, or a submit
click settled by outcome `o`. -/
inductive Event where
  | select (u : String) (files : List File)
  | previewLoad
  | submit (o : Outcome)

/-- Dispatch one event. -/
def step : Event → UIState → UIState
  | Event.select u files, s => selectionHandler u files s
  | Event.previewLoad, s => previewLoadHandler s
  | Event.submit o, s => submitHandler o s

/-- Run a sequence of events from a state. -/
def run (es : List Event) (s : UIState) : UIState :=
  es.foldl (fun s e => step e s) s

/-- Modelled from the spec: the initial DOM of the page (its HTML file
is not among the sources).  Per the spec the result area initially holds
neither an image nor an error paragraph, nothing is selected, the loader
is hidden, and the submit control is enabled only once a file is
selected. -/
def initState : UIState :=
  { selectedFile := none
    resultArea := []
    errorMessage := ""
    loaderHidden := true
    submitDisabled := true
    uploadDisabled := false
    preview := []
    liveURLs := []
    requests := 0 }

/-- The result-area invariant: nothing, exactly one image, or exactly
one error paragraph. -/
def resultInv (s : UIState) : Prop :=
  s.resultArea = []
    ∨ (∃ src alt, s.resultArea = [ResultElem.img src alt])
    ∨ (∃ t, s.resultArea = [ResultElem.errP t])

/-- The outcome of the platform read behind `fileToBase64`:
`readAsDataURL` either loads a data-URL string (modelled as its
character list) or errors. -/
inductive ReadOutcome where
  | ok (dataURI : List Char)
  | err (e : String)

/-- JavaScript `String.split` at the comma separator, on character
lists. -/
def splitOnComma : List Char → List (List Char)
  | [] => [[]]
  | c :: cs =>
      if c = ',' then [] :: splitOnComma cs
      else
        match splitOnComma cs with
        | [] => [[c]]
        | g :: gs => (c :: g) :: gs

/-- `fileToBase64`: on a successful read it resolves with
`result.split(',')[1]` (which is undefined, here `none`, when the string
has no comma); on a failed read it rejects with the reader's error. -/
def fileToBase64 : ReadOutcome → Except String (Option (List Char))
  | ReadOutcome.ok uri => Except.ok ((splitOnComma uri).get? 1)
  | ReadOutcome.err e => Except.error e

/-! ### Sample values used by the concrete witnesses -/

/-- A sample user file. -/
def sampleFile : File := { name := "photo.png", type := "image/png" }

/-- A sample page state with a file already selected. -/
def sampleSelected : UIState :=
  { initState with selectedFile := some sampleFile, submitDisabled := false }

/-- A sample response part carrying inline image data. -/
def sampleImagePart : Part :=
  { inlineData := some { mimeType := "image/png", data := "QUJD" }, text := none }

/-- A sample response part carrying only text. -/
def sampleTextPart : Part :=
  { inlineData := none, text := some "blocked by safety filters" }

/-! ### Helper lemmas -/

theorem clearResult_eq_nil {l : List ResultElem} (h : l.length ≤ 1) :
    clearResult l = [] := by
  match l with
  | [] => rfl
  | [_] => rfl
  | _ :: _ :: _ => simp at h

theorem previewLoadHandler_resultArea (s : UIState) :
    (previewLoadHandler s).resultArea = s.resultArea := by
  cases hp : s.preview.head? <;> simp [previewLoadHandler, hp]

theorem submitFinish_resultArea (o : Outcome) (s : UIState) :
    ∃ x, (submitFinish o s).resultArea = s.resultArea ++ [x] := by
  cases o with
  | encodeFail m => exact ⟨_, rfl⟩
  | netFail m => exact ⟨_, rfl⟩
  | ok resp =>
      cases hm : ((resp.partsOpt.getD []).find? partHasImage).bind Part.inlineData with
      | some d =>
          refine ⟨ResultElem.img (mkDataURI d) generatedAlt, ?_⟩
          simp [submitFinish, setLoading, hm]
      | none =>
          refine ⟨ResultElem.errP (jsOrStr
            (jsOrOpt (((resp.partsOpt.getD []).find? partHasText).bind Part.text)
              defaultErrorMsg) unknownErrorMsg), ?_⟩
          simp [submitFinish, setLoading, appendError, hm]

theorem step_resultArea_le (e : Event) (s : UIState)
    (h : s.resultArea.length ≤ 1) : (step e s).resultArea.length ≤ 1 := by
  cases e with
  | select u files =>
      cases files with
      | nil => exact h
      | cons f fs =>
          simp [step, selectionHandler, displayError, clearResult_eq_nil h]
  | previewLoad =>
      rw [step, previewLoadHandler_resultArea]; exact h
  | submit o =>
      rw [step]
      unfold submitHandler
      cases hsel : s.selectedFile with
      | none => exact h
      | some f =>
          obtain ⟨x, hx⟩ := submitFinish_resultArea o (submitStart s)
          have hstart : (submitStart s).resultArea = [] := by
            simp [submitStart, setLoading, displayError, clearResult_eq_nil h]
          rw [hx, hstart]
          simp

theorem run_resultArea_le (es : List Event) (s : UIState)
    (h : s.resultArea.length ≤ 1) : (run es s).resultArea.length ≤ 1 := by
  induction es generalizing s with
  | nil => exact h
  | cons e es ih => exact ih (step e s) (step_resultArea_le e s h)

theorem resultArea_le_one_inv {s : UIState} (h : s.resultArea.length ≤ 1) :
    resultInv s := by
  match hl : s.resultArea with
  | [] => exact Or.inl hl
  | [ResultElem.img src alt] => exact Or.inr (Or.inl ⟨src, alt, hl⟩)
  | [ResultElem.errP t] => exact Or.inr (Or.inr ⟨t, hl⟩)
  | _ :: _ :: _ => rw [hl] at h; simp at h

theorem errMsg_eq (parts : List Part) :
    jsOrStr (jsOrOpt ((parts.find? partHasText).bind Part.text) defaultErrorMsg)
        unknownErrorMsg
      = ((parts.find? partHasText).bind Part.text).getD defaultErrorMsg := by
  cases hft : parts.find? partHasText with
  | none =>
      have hd : defaultErrorMsg ≠ "" := by decide
      simp [jsOrOpt, jsOrStr, hd]
  | some tp =>
      have hp : partHasText tp = true := List.find?_some hft
      cases ht : tp.text with
      | none => rw [partHasText, ht] at hp; simp at hp
      | some t =>
          have htne : t ≠ "" := by
            rw [partHasText, ht] at hp
            simpa using hp
          simp [ht, jsOrOpt, jsOrStr, htne]

theorem splitOnComma_no_comma (l : List Char) (h : ',' ∉ l) :
    splitOnComma l = [l] := by
  induction l with
  | nil => rfl
  | cons c cs ih =>
      have hc : ¬ (c = ',') := fun hc => h (by rw [hc]; exact List.mem_cons_self _ _)
      have hcs : ',' ∉ cs := fun hm => h (List.mem_cons_of_mem _ hm)
      simp [splitOnComma, hc, ih hcs]

theorem splitOnComma_append (p b : List Char) (hp : ',' ∉ p) :
    splitOnComma (p ++ ',' :: b) = p :: splitOnComma b := by
  induction p with
  | nil => simp [splitOnComma]
  | cons c cs ih =>
      have hc : ¬ (c = ',') := fun hc => hp (by rw [hc]; exact List.mem_cons_self _ _)
      have hcs : ',' ∉ cs := fun hm => hp (List.mem_cons_of_mem _ hm)
      simp [splitOnComma, hc, ih hcs]

/-! ### Claim theorems -/

/-- C1: when the response's parts list has a first part with inline
image data, the submission handler leaves the result area holding
exactly one image whose source is the data URI built from that part's
media type and base64 data, and no error paragraph. -/
theorem C1_success_renders_one_image (s : UIState) (f : File)
    (resp : GenResponse) (ip : Part) (d : InlineData)
    (hf : s.selectedFile = some f)
    (hlen : s.resultArea.length ≤ 1)
    (hip : (resp.partsOpt.getD []).find? partHasImage = some ip)
    (hd : ip.inlineData = some d) :
    (submitHandler (Outcome.ok resp) s).resultArea
      = [ResultElem.img (mkDataURI d) generatedAlt] := by
  simp [submitHandler, hf, submitFinish, submitStart, setLoading, displayError,
    hip, hd, clearResult_eq_nil hlen]

/-- C1 witness: a concrete state with a selected file and a concrete
response whose first part carries inline image data. -/
theorem C1_witness :
    sampleSelected.selectedFile = some sampleFile
      ∧ sampleSelected.resultArea.length ≤ 1
      ∧ ((GenResponse.mk (some [sampleImagePart])).partsOpt.getD []).find?
          partHasImage = some sampleImagePart
      ∧ sampleImagePart.inlineData = some { mimeType := "image/png", data := "QUJD" }
      ∧ (submitHandler (Outcome.ok (GenResponse.mk (some [sampleImagePart])))
            sampleSelected).resultArea
          = [ResultElem.img (mkDataURI { mimeType := "image/png", data := "QUJD" })
              generatedAlt] :=
  ⟨by decide, by decide, by decide, by decide,
    C1_success_renders_one_image sampleSelected sampleFile
      (GenResponse.mk (some [sampleImagePart])) sampleImagePart
      { mimeType := "image/png", data := "QUJD" }
      (by decide) (by decide) (by decide) (by decide)⟩

/-- C2: when the response's parts list has no inline-image part, the
submission handler leaves the result area holding exactly one error
paragraph, whose text is the first truthy text part's text when one
exists and the generic fallback message otherwise. -/
theorem C2_no_image_renders_one_error (s : UIState) (f : File)
    (resp : GenResponse)
    (hf : s.selectedFile = some f)
    (hlen : s.resultArea.length ≤ 1)
    (himg : (resp.partsOpt.getD []).find? partHasImage = none) :
    (submitHandler (Outcome.ok resp) s).resultArea
      = [ResultElem.errP
          ((((resp.partsOpt.getD []).find? partHasText).bind Part.text).getD
            defaultErrorMsg)] := by
  rw [← errMsg_eq]
  simp [submitHandler, hf, submitFinish, submitStart, setLoading, displayError,
    appendError, himg, clearResult_eq_nil hlen]

/-- C2 witness: a concrete response with no image part and a text part,
so the rendered paragraph carries that text. -/
theorem C2_witness :
    sampleSelected.selectedFile = some sampleFile
      ∧ sampleSelected.resultArea.length ≤ 1
      ∧ ((GenResponse.mk (some [sampleTextPart])).partsOpt.getD []).find?
          partHasImage = none
      ∧ (submitHandler (Outcome.ok (GenResponse.mk (some [sampleTextPart])))
            sampleSelected).resultArea
          = [ResultElem.errP "blocked by safety filters"] := by
  refine ⟨by decide, by decide, by decide, ?_⟩
  have h := C2_no_image_renders_one_error sampleSelected sampleFile
    (GenResponse.mk (some [sampleTextPart])) (by decide) (by decide) (by decide)
  rw [h]
  decide

/-- C3: invoking the submission handler with no file selected writes the
no-file message to the error-message area and changes nothing else: no
request is issued, the loading state is not entered, and the result area
is untouched. -/
theorem C3_no_file_short_circuit (s : UIState) (o : Outcome)
    (hf : s.selectedFile = none) :
    submitHandler o s = displayError noFileMsg s
      ∧ (submitHandler o s).errorMessage = noFileMsg
      ∧ (submitHandler o s).requests = s.requests
      ∧ (submitHandler o s).resultArea = s.resultArea
      ∧ (submitHandler o s).loaderHidden = s.loaderHidden
      ∧ (submitHandler o s).submitDisabled = s.submitDisabled
      ∧ (submitHandler o s).uploadDisabled = s.uploadDisabled := by
  simp [submitHandler, hf, displayError]

/-- C3 witness: the initial state has nothing selected. -/
theorem C3_witness :
    initState.selectedFile = none
      ∧ submitHandler (Outcome.ok (GenResponse.mk none)) initState
          = displayError noFileMsg initState :=
  ⟨by decide,
    (C3_no_file_short_circuit initState (Outcome.ok (GenResponse.mk none))
      (by decide)).1⟩

/-- C4: with a file selected, the synchronous prefix of the submission
handler disables both controls and shows the loader, and for every
outcome the completed handler hides the loader and re-enables both
controls. -/
theorem C4_loading_lifecycle (s : UIState) (f : File) (o : Outcome)
    (hf : s.selectedFile = some f) :
    submitHandler o s = submitFinish o (submitStart s)
      ∧ (submitStart s).submitDisabled = true
      ∧ (submitStart s).uploadDisabled = true
      ∧ (submitStart s).loaderHidden = false
      ∧ (submitHandler o s).loaderHidden = true
      ∧ (submitHandler o s).submitDisabled = false
      ∧ (submitHandler o s).uploadDisabled = false := by
  have heq : submitHandler o s = submitFinish o (submitStart s) := by
    simp [submitHandler, hf]
  refine ⟨heq, rfl, rfl, rfl, ?_, ?_, ?_⟩ <;> rw [heq] <;> rfl

/-- C4 witness: a concrete selected state with a network-failure
outcome. -/
theorem C4_witness :
    sampleSelected.selectedFile = some sampleFile
      ∧ (submitHandler (Outcome.netFail (some "boom")) sampleSelected).loaderHidden
          = true
      ∧ (submitHandler (Outcome.netFail (some "boom")) sampleSelected).submitDisabled
          = false :=
  ⟨by decide,
    (C4_loading_lifecycle sampleSelected sampleFile
      (Outcome.netFail (some "boom")) (by decide)).2.2.2.2.1,
    (C4_loading_lifecycle sampleSelected sampleFile
      (Outcome.netFail (some "boom")) (by decide)).2.2.2.2.2.1⟩

/-- C5: a selection event carrying at least one file stores that file,
renders its preview from the fresh object URL, enables the submit
control, empties the result area, clears the error-message area, and
issues no request. -/
theorem C5_selection_effects (s : UIState) (u : String) (f : File)
    (fs : List File) (hlen : s.resultArea.length ≤ 1) :
    (selectionHandler u (f :: fs) s).selectedFile = some f
      ∧ (selectionHandler u (f :: fs) s).preview = [u]
      ∧ (selectionHandler u (f :: fs) s).submitDisabled = false
      ∧ (selectionHandler u (f :: fs) s).resultArea = []
      ∧ (selectionHandler u (f :: fs) s).errorMessage = ""
      ∧ (selectionHandler u (f :: fs) s).requests = s.requests := by
  simp [selectionHandler, displayError, clearResult_eq_nil hlen]

/-- C5 witness: selecting a concrete file from the initial state. -/
theorem C5_witness :
    initState.resultArea.length ≤ 1
      ∧ (selectionHandler "blob:preview-1" [sampleFile] initState).selectedFile
          = some sampleFile :=
  ⟨by decide,
    (C5_selection_effects initState "blob:preview-1" sampleFile [] (by decide)).1⟩

/-- C6: from the initial page state, every sequence of selection,
preview-load and submission events leaves the result area holding
nothing, exactly one image, or exactly one error paragraph. -/
theorem C6_result_area_exclusive (es : List Event) :
    resultInv (run es initState) :=
  resultArea_le_one_inv (run_resultArea_le es initState (by decide))

/-- C7: when the platform read succeeds with a string made of a
comma-free prefix, a comma, and a comma-free payload (the shape of a
data URI), `fileToBase64` resolves with the payload alone; when the read
fails, it rejects with the reader's error. -/
theorem C7_fileToBase64_contract (p b : List Char) (e : String)
    (hp : ',' ∉ p) (hb : ',' ∉ b) :
    fileToBase64 (ReadOutcome.ok (p ++ ',' :: b)) = Except.ok (some b)
      ∧ fileToBase64 (ReadOutcome.err e) = Except.error e := by
  constructor
  · simp [fileToBase64, splitOnComma_append p b hp, splitOnComma_no_comma b hb]
  · rfl

/-- C7 witness: a concrete PNG-style data URL. -/
theorem C7_witness :
    ',' ∉ ("data:image/png;base64").toList
      ∧ ',' ∉ ("iVBORw0KGgo=").toList
      ∧ fileToBase64 (ReadOutcome.ok
            (("data:image/png;base64").toList ++ ',' :: ("iVBORw0KGgo=").toList))
          = Except.ok (some (("iVBORw0KGgo=").toList)) :=
  ⟨by decide, by decide,
    (C7_fileToBase64_contract ("data:image/png;base64").toList
      ("iVBORw0KGgo=").toList "readerError" (by decide) (by decide)).1⟩

/-- C8 counterexample: the claim that the selected-file variable is
cleared once the request completes is false — after a completed
submission from a concrete selected state, the variable still holds the
submitted file. -/
theorem C8_counterexample :
    (submitHandler (Outcome.ok (GenResponse.mk none)) sampleSelected).selectedFile
        = some sampleFile
      ∧ (submitHandler (Outcome.ok (GenResponse.mk none))
            sampleSelected).selectedFile ≠ none := by
  decide

/-- C8 (amended): the submission handler never changes the stored
selection — the submitted file is retained after the request completes
and is replaced only by a later file-selection event. -/
theorem C8_selection_retained (s : UIState) (o : Outcome) :
    (submitHandler o s).selectedFile = s.selectedFile := by
  unfold submitHandler
  cases hsel : s.selectedFile with
  | none => exact hsel
  | some f =>
      cases o with
      | encodeFail m => exact hsel
      | netFail m => exact hsel
      | ok resp =>
          unfold submitFinish
          cases hm : ((resp.partsOpt.getD []).find? partHasImage).bind Part.inlineData
            <;> simp [setLoading, appendError, submitStart, displayError, hm, hsel]

/-- C9: a selection event creating a preview registers a fresh object
URL as live, and firing the preview image's load event revokes exactly
that URL. -/
theorem C9_preview_url_revoked (s : UIState) (u : String) (f : File)
    (fs : List File) (hu : u ∉ s.liveURLs) :
    u ∈ (selectionHandler u (f :: fs) s).liveURLs
      ∧ u ∉ (previewLoadHandler (selectionHandler u (f :: fs) s)).liveURLs := by
  have h1 : (selectionHandler u (f :: fs) s).liveURLs = s.liveURLs ++ [u] := by
    simp [selectionHandler, displayError]
  have h2 : (selectionHandler u (f :: fs) s).preview = [u] := by
    simp [selectionHandler, displayError]
  constructor
  · rw [h1]; simp
  · have h3 : (previewLoadHandler (selectionHandler u (f :: fs) s)).liveURLs
        = (s.liveURLs ++ [u]).erase u := by
      simp [previewLoadHandler, h2, h1]
    rw [h3, List.erase_append_right _ hu]
    simp [hu]

/-- C9 witness: selecting a concrete file from the initial state and
loading the preview. -/
theorem C9_witness :
    "blob:preview-2" ∉ initState.liveURLs
      ∧ "blob:preview-2"
          ∈ (selectionHandler "blob:preview-2" [sampleFile] initState).liveURLs :=
  ⟨by decide,
    (C9_preview_url_revoked initState "blob:preview-2" sampleFile [] (by decide)).1⟩

/-- C10: a selection change event with an empty files collection leaves
the whole page state unchanged. -/
theorem C10_empty_selection_noop (s : UIState) (u : String) :
    selectionHandler u [] s = s := rfl

end AtaturkAni
